import Mathlib

/-!
Shallow embedding of `src/composer/hwc_tonemapper.cpp` (namespace `sdm`):
the HDR tone-mapping session manager consisting of `ToneMapSession` and
`HWCToneMapper`.

External collaborators (buffer allocator, GPU tonemapper factory and engine,
fence primitives) are modelled as oracle functions collected in `Oracles`;
they are out of scope per the specification and only their observable
results matter to the manager's logic.
-/

namespace sdm

/-- Fences, as `shared_ptr<Fence>`: `none` models a null pointer, `some n` a live fence
object (identified by its raw fd / identity). -/
abbrev Fence := Option Int

/-- Error codes `DisplayError` used by the tonemapper code paths. -/
inductive DisplayError where
  | kErrorNone
  | kErrorParameters
  | kErrorNotSupported
  | kErrorMemory
  | kErrorResources
  | kErrorUndefined
deriving DecidableEq, Repr, Inhabited

export DisplayError (kErrorNone kErrorParameters kErrorNotSupported kErrorMemory kErrorResources)

/-- Tone-map direction constants `TONEMAP_FORWARD` / `TONEMAP_INVERSE`. -/
inductive TonemapType where
  | TONEMAP_FORWARD
  | TONEMAP_INVERSE
deriving DecidableEq, Repr, Inhabited

export TonemapType (TONEMAP_FORWARD TONEMAP_INVERSE)

/-- Layer composition kinds relevant to `HandleToneMap`
(`kCompositionGPU`, `kCompositionGPUTarget`, anything else). -/
inductive LayerComposition where
  | kCompositionGPU
  | kCompositionGPUTarget
  | kCompositionSDE
deriving DecidableEq, Repr, Inhabited

export LayerComposition (kCompositionGPU kCompositionGPUTarget kCompositionSDE)

/-- The `Lut3d` 3D lookup table attached to a layer. `lutEntries` models
whether the `lutEntries` pointer is non-null. -/
structure Lut3d where
  lutEntries : Bool
  dim : Nat
  validGridEntries : Bool
  gridSize : Nat
deriving DecidableEq, Repr, Inhabited

/-- One plane of a `LayerBuffer` (only `planes[0].fd` is touched by the
tonemapper). -/
structure LayerPlane where
  fd : Int
  offset : Nat
  stride : Nat
deriving DecidableEq, Repr, Inhabited

/-- The `LayerBuffer` fields of `sdm::LayerBuffer` read or written by the
tonemapper. `flagsHdr` is `flags.hdr`, `transfer` is
`color_metadata.transfer`. -/
structure LayerBuffer where
  flagsHdr : Bool
  transfer : Nat
  acquire_fence : Fence
  release_fence : Fence
  size : Nat
  planes : List LayerPlane
  handle_id : Nat
  buffer_id : Nat
  width : Nat
  height : Nat
  format : Nat
deriving DecidableEq, Repr, Inhabited

/-- Request flags `LayerRequestFlags`: the `secure` and `tone_map` bits. -/
structure LayerRequestFlags where
  secure : Bool
  tone_map : Bool
deriving DecidableEq, Repr, Inhabited

/-- Requested output geometry/format `LayerRequest` for a layer. -/
structure LayerRequest where
  width : Nat
  height : Nat
  format : Nat
  flags : LayerRequestFlags
deriving DecidableEq, Repr, Inhabited

/-- One `sdm::Layer`, restricted to the fields consumed by the tonemapper. -/
structure Layer where
  input_buffer : LayerBuffer
  request : LayerRequest
  composition : LayerComposition
  lut_3d : Lut3d
deriving DecidableEq, Repr, Inhabited

/-- Allocation request `BufferConfig` filled in by `AllocateIntermediateBuffers`. -/
structure BufferConfig where
  width : Nat
  height : Nat
  format : Nat
  secure : Bool
  gfx_client : Bool
deriving DecidableEq, Repr, Inhabited

/-- Allocator metadata `AllocatedBufferInfo` of one allocated buffer. -/
structure AllocatedBufferInfo where
  size : Nat
  fd : Int
  id : Nat
deriving DecidableEq, Repr, Inhabited

/-- One intermediate-buffer slot `BufferInfo`. `private_data` models the
opaque native handle pointer (`none` = null = slot not allocated). -/
structure BufferInfo where
  buffer_config : BufferConfig
  alloc_buffer_info : AllocatedBufferInfo
  private_data : Option Nat
deriving DecidableEq, Repr, Inhabited

/-- Oracles for the external collaborators.
`allocateBuffer cfg i` is the outcome of the i-th `AllocateBuffer` call of
one `AllocateIntermediateBuffers` run: the returned `DisplayError` and, when
that error is `kErrorNone`, the handle and metadata written into the slot.
`getUnalignedWidth`/`getUnalignedHeight` read geometry from a handle.
`getInstance ty lutPresent dim gridPresent gridSize secure` is
`TonemapperFactory_GetInstance` (`none` = factory returned null).
`blit engine dst src wait` is the raw fence returned by the engine blit, and
`merge a b` is `Fence::Merge`. `mapOk` tells whether `MapBuffer` succeeds in
the dump path. -/
structure Oracles where
  allocateBuffer : BufferConfig → Nat → DisplayError × Nat × AllocatedBufferInfo
  getUnalignedWidth : Option Nat → Nat
  getUnalignedHeight : Option Nat → Nat
  getInstance : TonemapType → Bool → Nat → Bool → Nat → Bool → Option Nat
  blit : Nat → Option Nat → Nat → Fence → Int
  merge : Fence → Fence → Fence
  mapOk : Option Nat → Bool

/-- Modelled from the spec: the intermediate-buffer pool size
`kNumIntermediateBuffers`, declared in the missing header
`hwc_tonemapper.h` ("a small constant ≥ 2, enabling ping-pong ...
buffering"). -/
def kNumIntermediateBuffers : Nat := 2

/-- The session configuration `ToneMapConfig`: direction, blend color-space (opaque
`PrimariesTransfer`, modelled as `Nat`), transfer, secure flag, format. -/
structure ToneMapConfig where
  type : TonemapType
  blend_cs : Nat
  transfer : Nat
  secure : Bool
  format : Nat
deriving DecidableEq, Repr, Inhabited

/-- One tone-mapping session `ToneMapSession`. `gpu_tone_mapper = none`
models a null engine pointer. -/
structure ToneMapSession where
  tone_map_config : ToneMapConfig
  buffer_info : List BufferInfo
  current_buffer_index : Nat
  release_fence : List Fence
  acquired : Bool
  layer_index : Int
  gpu_tone_mapper : Option Nat
deriving DecidableEq, Repr, Inhabited

/-- The session constructor: `buffer_info_.resize(kNumIntermediateBuffers)`.
Modelled from the spec: the remaining field initializers live in the missing
header `hwc_tonemapper.h`; per the spec the cursor starts at the initial
slot (0), the session starts unacquired with no engine, no bound layer and
null per-slot release fences. -/
def ToneMapSession.fresh : ToneMapSession where
  tone_map_config := default
  buffer_info := List.replicate kNumIntermediateBuffers default
  current_buffer_index := 0
  release_fence := List.replicate kNumIntermediateBuffers none
  acquired := false
  layer_index := -1
  gpu_tone_mapper := none

/-- Pure assignment `ToneMapSession::SetToneMapConfig` (hwc_tonemapper.cpp:154-161). -/
def ToneMapSession.SetToneMapConfig (s : ToneMapSession) (layer : Layer)
    (blend_cs : Nat) : ToneMapSession :=
  { s with tone_map_config :=
    { type := if layer.input_buffer.flagsHdr then TONEMAP_FORWARD else TONEMAP_INVERSE
      blend_cs := blend_cs
      transfer := layer.input_buffer.transfer
      secure := layer.request.flags.secure
      format := layer.request.format } }

/-- Config comparison `ToneMapSession::IsSameToneMapConfig` (hwc_tonemapper.cpp:163-177):
compares derived direction, blend color-space, transfer, secure flag,
format, and the layer's requested width/height against the unaligned
geometry the allocator reports for the first buffer slot's handle. -/
def ToneMapSession.IsSameToneMapConfig (o : Oracles) (s : ToneMapSession)
    (layer : Layer) (blend_cs : Nat) : Bool :=
  let buffer := layer.input_buffer
  let handle := (s.buffer_info.getD 0 default).private_data
  let tonemap_type := if buffer.flagsHdr then TONEMAP_FORWARD else TONEMAP_INVERSE
  let handle_unaligned_width := o.getUnalignedWidth handle
  let handle_unaligned_height := o.getUnalignedHeight handle
  decide (tonemap_type = s.tone_map_config.type ∧
          blend_cs = s.tone_map_config.blend_cs ∧
          buffer.transfer = s.tone_map_config.transfer ∧
          layer.request.flags.secure = s.tone_map_config.secure ∧
          layer.request.format = s.tone_map_config.format ∧
          layer.request.width = handle_unaligned_width ∧
          layer.request.height = handle_unaligned_height)

/-- The buffer config written into slot i by `AllocateIntermediateBuffers`
before calling the allocator (hwc_tonemapper.cpp:117-121). -/
def layerBufferConfig (layer : Layer) : BufferConfig where
  width := layer.request.width
  height := layer.request.height
  format := layer.request.format
  secure := layer.request.flags.secure
  gfx_client := true

/-- One pass of the `FreeIntermediateBuffers` loop over the first `n` slots:
slots whose `private_data` is non-null are freed (the allocator's
`FreeBuffer` nulls the handle), empty slots are skipped
(hwc_tonemapper.cpp:132-139). -/
def freeSlots : Nat → List BufferInfo → List BufferInfo
  | _, [] => []
  | 0, l => l
  | n + 1, bi :: rest =>
    (if bi.private_data.isSome then { bi with private_data := none } else bi) ::
      freeSlots n rest

/-- Buffer release `ToneMapSession::FreeIntermediateBuffers` (hwc_tonemapper.cpp:132-139). -/
def ToneMapSession.FreeIntermediateBuffers (bufs : List BufferInfo) : List BufferInfo :=
  freeSlots kNumIntermediateBuffers bufs

/-- The loop of `ToneMapSession::AllocateIntermediateBuffers`
(hwc_tonemapper.cpp:115-127): `n` iterations remain, `i` is the current
slot. Writes the layer-derived config into slot `i`, asks the allocator;
on failure frees everything and returns the allocator's error. -/
def allocLoop (o : Oracles) (layer : Layer) :
    Nat → Nat → List BufferInfo → DisplayError × List BufferInfo
  | 0, _, bufs => (kErrorNone, bufs)
  | n + 1, i, bufs =>
    let bi := { bufs.getD i default with buffer_config := layerBufferConfig layer }
    let bufs1 := bufs.set i bi
    let res := o.allocateBuffer bi.buffer_config i
    if res.1 ≠ kErrorNone then
      (res.1, ToneMapSession.FreeIntermediateBuffers bufs1)
    else
      let bi2 := { bi with private_data := some res.2.1, alloc_buffer_info := res.2.2 }
      allocLoop o layer n (i + 1) (bufs1.set i bi2)

/-- Buffer allocation `ToneMapSession::AllocateIntermediateBuffers` (hwc_tonemapper.cpp:113-130). -/
def ToneMapSession.AllocateIntermediateBuffers (o : Oracles) (layer : Layer)
    (bufs : List BufferInfo) : DisplayError × List BufferInfo :=
  allocLoop o layer kNumIntermediateBuffers 0 bufs

/-- Update `planes[0].fd`, leaving every other plane untouched. -/
def setPlane0Fd : List LayerPlane → Int → List LayerPlane
  | [], _ => []
  | p :: rest, fd => { p with fd := fd } :: rest

/-- Output publication `ToneMapSession::UpdateBuffer` (hwc_tonemapper.cpp:141-148): writes the
given acquire fence and the current slot's size / fd / id into the layer's
buffer record. The C++ method writes no session field, so it is a pure
function of the session here. -/
def ToneMapSession.UpdateBuffer (s : ToneMapSession) (acquire_fence : Fence)
    (buffer : LayerBuffer) : LayerBuffer :=
  let slot := s.buffer_info.getD s.current_buffer_index default
  { buffer with
    acquire_fence := acquire_fence
    size := slot.alloc_buffer_info.size
    planes := setPlane0Fd buffer.planes slot.alloc_buffer_info.fd
    handle_id := slot.alloc_buffer_info.id }

/-- Release-fence recording `ToneMapSession::SetReleaseFence` (hwc_tonemapper.cpp:150-152). -/
def ToneMapSession.SetReleaseFence (s : ToneMapSession) (fd : Fence) : ToneMapSession :=
  { s with release_fence := s.release_fence.set s.current_buffer_index fd }

/-- The `kCodeGetInstance` task (hwc_tonemapper.cpp:74-88): asks the factory
for an engine, passing grid entries only when `validGridEntries`. -/
def ToneMapSession.AcquireEngine (o : Oracles) (s : ToneMapSession)
    (layer : Layer) : ToneMapSession :=
  let gridPresent := layer.lut_3d.validGridEntries
  let grid_size := if gridPresent then layer.lut_3d.gridSize else 0
  { s with
    gpu_tone_mapper :=
      o.getInstance s.tone_map_config.type layer.lut_3d.lutEntries layer.lut_3d.dim
        gridPresent grid_size s.tone_map_config.secure }

/-- Manager state `HWCToneMapper`: the ordered live-session collection, the
remembered frame-buffer-session index (`-1` = none), and the frame-dump
counters. -/
structure HWCToneMapper where
  tone_map_sessions : List ToneMapSession
  fb_session_index : Int
  dump_frame_count : Nat
  dump_frame_index : Nat
deriving DecidableEq, Repr, Inhabited

/-- The reuse scan of `AcquireToneMapSession` (hwc_tonemapper.cpp:346-355):
linear scan in order; the first session that is not acquired and whose
configuration matches is updated (cursor advanced modulo the pool size,
marked acquired) and its index returned; `none` if no session matches. -/
def acquireScan (o : Oracles) (layer : Layer) (blend_cs : Nat) :
    List ToneMapSession → Option (Nat × List ToneMapSession)
  | [] => none
  | s :: rest =>
    if !s.acquired && s.IsSameToneMapConfig o layer blend_cs then
      some (0,
        { s with
          current_buffer_index := (s.current_buffer_index + 1) % kNumIntermediateBuffers
          acquired := true } :: rest)
    else
      match acquireScan o layer blend_cs rest with
      | some (j, rest') => some (j + 1, s :: rest')
      | none => none

/-- Session acquisition `HWCToneMapper::AcquireToneMapSession` (hwc_tonemapper.cpp:334-385).
Returns the error code, the new session collection, and the session index
written to the out-parameter (`none` when the call fails, in which case the
caller's out-parameter keeps its previous value). -/
def HWCToneMapper.AcquireToneMapSession (o : Oracles) (layer : Layer)
    (blend_cs : Nat) (sessions : List ToneMapSession) :
    DisplayError × List ToneMapSession × Option Nat :=
  if !layer.lut_3d.lutEntries || layer.lut_3d.dim = 0 then
    (kErrorParameters, sessions, none)
  else
    match acquireScan o layer blend_cs sessions with
    | some (i, sessions') => (kErrorNone, sessions', some i)
    | none =>
      let session := (ToneMapSession.fresh.SetToneMapConfig layer blend_cs).AcquireEngine o layer
      match session.gpu_tone_mapper with
      | none => (kErrorNotSupported, sessions, none)
      | some _ =>
        let res := ToneMapSession.AllocateIntermediateBuffers o layer session.buffer_info
        if res.1 ≠ kErrorNone then
          (res.1, sessions, none)
        else
          let session2 := { session with buffer_info := res.2, acquired := true }
          (kErrorNone, sessions ++ [session2], some sessions.length)

/-- Frame dump `HWCToneMapper::DumpToneMapOutput` (hwc_tonemapper.cpp:292-332),
restricted to its effect on the manager state: when the dump counter is
nonzero and mapping the current buffer succeeds, the counter is decremented
and the frame index advanced; the file write itself is external I/O. -/
def HWCToneMapper.DumpToneMapOutput (o : Oracles) (st : HWCToneMapper)
    (session : ToneMapSession) : HWCToneMapper :=
  if st.dump_frame_count = 0 then st
  else
    let handle := (session.buffer_info.getD session.current_buffer_index default).private_data
    if !o.mapOk handle then st
    else
      { st with
        dump_frame_count := st.dump_frame_count - 1
        dump_frame_index := st.dump_frame_index + 1 }

/-- Blit dispatch `HWCToneMapper::ToneMap` (hwc_tonemapper.cpp:230-247): merge the
session's release fence for the target slot with the layer's acquire fence,
dispatch the blit, optionally dump, then publish the new buffer and fence
into the layer's buffer record. Returns the updated layer buffer and the
manager state after the dump-counter update. -/
def HWCToneMapper.ToneMap (o : Oracles) (st : HWCToneMapper) (layer : Layer)
    (session : ToneMapSession) : LayerBuffer × HWCToneMapper :=
  let buffer_index := session.current_buffer_index
  let merged := o.merge (session.release_fence.getD buffer_index none)
      layer.input_buffer.acquire_fence
  let dst := (session.buffer_info.getD buffer_index default).private_data
  let raw := o.blit (session.gpu_tone_mapper.getD 0) dst layer.input_buffer.buffer_id merged
  let fence : Fence := some raw
  let st1 := st.DumpToneMapOutput o session
  (session.UpdateBuffer fence layer.input_buffer, st1)

/-- Full teardown `HWCToneMapper::Terminate` (hwc_tonemapper.cpp:276-284): pops and
destroys every session and resets the frame-buffer index — but only when
the collection is non-empty. -/
def HWCToneMapper.Terminate (st : HWCToneMapper) : HWCToneMapper :=
  if st.tone_map_sessions.isEmpty then st
  else { st with tone_map_sessions := [], fb_session_index := -1 }

/-- The loop body of `HWCToneMapper::HandleToneMap`
(hwc_tonemapper.cpp:183-225), processing the remaining layers. `i` is the
current layer index, `gpu_count` the number of `kCompositionGPU` layers seen
so far. Returns the status, the (possibly updated) remaining layers, and
the new manager state. -/
def handleToneMapLoop (o : Oracles) (blend_cs : Nat) :
    List Layer → Nat → Nat → HWCToneMapper → Int × List Layer × HWCToneMapper
  | [], _, _, st => (0, [], st)
  | layer :: rest, i, gpu_count, st =>
    let gpu_count' := if layer.composition = kCompositionGPU then gpu_count + 1 else gpu_count
    if layer.request.flags.tone_map then
      if layer.composition = kCompositionGPUTarget ∧ gpu_count' = 0 ∧
          ¬st.tone_map_sessions.isEmpty ∧ 0 ≤ st.fb_session_index then
        -- cached-frame-buffer short circuit (hwc_tonemapper.cpp:194-205)
        let fbIdx := st.fb_session_index.toNat
        let fb_session := st.tone_map_sessions.getD fbIdx default
        let layer' := { layer with
          input_buffer := fb_session.UpdateBuffer none layer.input_buffer }
        let fb_session' := { fb_session with layer_index := (i : Int), acquired := true }
        (0, layer' :: rest,
          { st with tone_map_sessions := st.tone_map_sessions.set fbIdx fb_session' })
      else
        let res := HWCToneMapper.AcquireToneMapSession o layer blend_cs st.tone_map_sessions
        -- the out-parameter was initialised to 0 by the caller
        let session_index := res.2.2.getD 0
        let st1 :=
          if layer.composition = kCompositionGPUTarget then
            { st with tone_map_sessions := res.2.1, fb_session_index := (session_index : Int) }
          else
            { st with tone_map_sessions := res.2.1 }
        if res.1 ≠ kErrorNone then
          (-1, layer :: rest, st1.Terminate)
        else
          let session := st1.tone_map_sessions.getD session_index default
          let tm := st1.ToneMap o layer session
          let session' := { session with layer_index := (i : Int) }
          let st2 := { tm.2 with
            tone_map_sessions := tm.2.tone_map_sessions.set session_index session' }
          let layer' := { layer with input_buffer := tm.1 }
          let recur := handleToneMapLoop o blend_cs rest (i + 1) gpu_count' st2
          (recur.1, layer' :: recur.2.1, recur.2.2)
    else
      let recur := handleToneMapLoop o blend_cs rest (i + 1) gpu_count' st
      (recur.1, layer :: recur.2.1, recur.2.2)

/-- Frame entry point `HWCToneMapper::HandleToneMap` (hwc_tonemapper.cpp:179-228). The layer
stack is the layer list plus the blend color-space. -/
def HWCToneMapper.HandleToneMap (o : Oracles) (st : HWCToneMapper)
    (layers : List Layer) (blend_cs : Nat) : Int × List Layer × HWCToneMapper :=
  handleToneMapLoop o blend_cs layers 0 0 st

/-- The loop of `HWCToneMapper::PostCommit` (hwc_tonemapper.cpp:250-273).
`idx` is the current position in the (already partially erased) vector and
`fb` the running frame-buffer-session index. Acquired sessions survive:
the release fence is read back from the bound layer's buffer and recorded
for the current slot, and `acquired` is cleared. Unacquired sessions are
erased, adjusting `fb`. -/
def postCommitLoop (layers : List Layer) :
    List ToneMapSession → Nat → Int → List ToneMapSession × Int
  | [], _, fb => ([], fb)
  | session :: rest, idx, fb =>
    if session.acquired then
      let layer := layers.getD session.layer_index.toNat default
      let session' :=
        { session.SetReleaseFence layer.input_buffer.release_fence with acquired := false }
      let recur := postCommitLoop layers rest (idx + 1) fb
      (session' :: recur.1, recur.2)
    else
      let fb' := if (idx : Int) = fb then -1 else if (idx : Int) < fb then fb - 1 else fb
      postCommitLoop layers rest idx fb'

/-- Post-commit reconciliation `HWCToneMapper::PostCommit` (hwc_tonemapper.cpp:249-274). -/
def HWCToneMapper.PostCommit (st : HWCToneMapper) (layers : List Layer) :
    HWCToneMapper :=
  let res := postCommitLoop layers st.tone_map_sessions 0 st.fb_session_index
  { st with tone_map_sessions := res.1, fb_session_index := res.2 }

/-- Dump configuration `HWCToneMapper::SetFrameDumpConfig` (hwc_tonemapper.cpp:286-290). -/
def HWCToneMapper.SetFrameDumpConfig (st : HWCToneMapper) (count : Nat) :
    HWCToneMapper :=
  { st with dump_frame_count := count, dump_frame_index := 0 }

/-- The per-session reconciliation applied by `PostCommit` to a session that
was acquired this frame: record the release fence read back from the bound
layer's buffer for the current slot, then clear `acquired`
(hwc_tonemapper.cpp:254-260). -/
def reconcileSession (layers : List Layer) (s : ToneMapSession) : ToneMapSession :=
  { s.SetReleaseFence
      (layers.getD s.layer_index.toNat default).input_buffer.release_fence with
    acquired := false }

/-! ### Concrete fixtures used to exercise the definitions -/

/-- An oracle on which every external call succeeds. -/
def okOracle : Oracles where
  allocateBuffer := fun _ i => (kErrorNone, 100 + i, ⟨4096 + i, 7, 11 + i⟩)
  getUnalignedWidth := fun _ => 1920
  getUnalignedHeight := fun _ => 1080
  getInstance := fun _ _ _ _ _ _ => some 5
  blit := fun _ _ _ _ => 42
  merge := fun a _ => a
  mapOk := fun _ => true

/-- An oracle whose second (`i = 1`) buffer allocation fails. -/
def failAlloc1Oracle : Oracles :=
  { okOracle with
    allocateBuffer := fun _ i =>
      if i = 1 then (kErrorResources, 0, default) else (kErrorNone, 100 + i, ⟨4096 + i, 7, 11 + i⟩) }

/-- An oracle whose GPU tonemapper factory returns null. -/
def noEngineOracle : Oracles :=
  { okOracle with getInstance := fun _ _ _ _ _ _ => none }

/-- A concrete HDR layer flagged for tone mapping, with a valid 3D LUT. -/
def hdrLayer : Layer where
  input_buffer :=
    { flagsHdr := true, transfer := 6, acquire_fence := some 3, release_fence := some 9,
      size := 0, planes := [⟨-1, 0, 0⟩], handle_id := 0, buffer_id := 77,
      width := 1920, height := 1080, format := 2 }
  request := { width := 1920, height := 1080, format := 3,
               flags := { secure := false, tone_map := true } }
  composition := kCompositionGPU
  lut_3d := { lutEntries := true, dim := 17, validGridEntries := false, gridSize := 0 }

/-- The same layer with a degenerate (zero-dimension) 3D LUT. -/
def badLutLayer : Layer :=
  { hdrLayer with
    lut_3d := { lutEntries := true, dim := 0, validGridEntries := false, gridSize := 0 } }

/-- A session already acquired this frame. -/
def acquiredSession : ToneMapSession :=
  { ToneMapSession.fresh with acquired := true, layer_index := 0, gpu_tone_mapper := some 5 }

/-! ### Theorems -/

/-- C3: the predicate `IsSameToneMapConfig` returns true if and only if all seven
comparisons hold — the direction derived from the layer's HDR flag, the
blend color-space, the transfer function, the secure flag, the requested
pixel format, and the layer's requested width and height versus the
unaligned width and height the allocator reports for the session's first
buffer handle; it returns false as soon as any one differs. -/
theorem isSameToneMapConfig_iff (o : Oracles) (s : ToneMapSession) (layer : Layer)
    (blend_cs : Nat) :
    s.IsSameToneMapConfig o layer blend_cs = true ↔
      ((if layer.input_buffer.flagsHdr then TONEMAP_FORWARD else TONEMAP_INVERSE) =
          s.tone_map_config.type ∧
        blend_cs = s.tone_map_config.blend_cs ∧
        layer.input_buffer.transfer = s.tone_map_config.transfer ∧
        layer.request.flags.secure = s.tone_map_config.secure ∧
        layer.request.format = s.tone_map_config.format ∧
        layer.request.width =
          o.getUnalignedWidth (s.buffer_info.getD 0 default).private_data ∧
        layer.request.height =
          o.getUnalignedHeight (s.buffer_info.getD 0 default).private_data) := by
  simp [ToneMapSession.IsSameToneMapConfig]

/-- C9 counterexample: on a manager state whose session collection is
already empty but whose remembered frame-buffer index is 0, `Terminate`
leaves the index at 0 instead of resetting it to -1 (the reset at
hwc_tonemapper.cpp:282 is guarded by a non-emptiness check at line 277). -/
theorem terminate_empty_counterexample :
    (HWCToneMapper.Terminate
        { tone_map_sessions := [], fb_session_index := 0,
          dump_frame_count := 0, dump_frame_index := 0 }).fb_session_index ≠ -1 := by
  decide

/-- C9 (amended): after `Terminate` the session collection is always empty,
and whenever the collection was non-empty at the call the remembered
frame-buffer-session index is reset to -1; when the collection was already
empty the state (in particular the remembered index) is left unchanged. -/
theorem terminate_clears (st : HWCToneMapper) :
    st.Terminate.tone_map_sessions = [] ∧
      (st.tone_map_sessions ≠ [] → st.Terminate.fb_session_index = -1) ∧
      (st.tone_map_sessions = [] → st.Terminate = st) := by
  unfold HWCToneMapper.Terminate
  rcases h : st.tone_map_sessions with _ | ⟨s, rest⟩ <;> simp [h, List.isEmpty]

/-- C9 witness: applying `Terminate` to a non-empty collection empties it and resets
the frame-buffer index. -/
theorem terminate_clears_witness :
    (HWCToneMapper.Terminate
        { tone_map_sessions := [acquiredSession], fb_session_index := 0,
          dump_frame_count := 0, dump_frame_index := 0 }).tone_map_sessions = [] ∧
      (HWCToneMapper.Terminate
        { tone_map_sessions := [acquiredSession], fb_session_index := 0,
          dump_frame_count := 0, dump_frame_index := 0 }).fb_session_index = -1 := by
  refine ⟨(terminate_clears _).1, (terminate_clears _).2.1 ?_⟩
  decide

/-- C10: the update `UpdateBuffer` sets exactly the acquire fence (to the given fence)
and the size, plane-0 fd and handle id (copied from the buffer at the
session's current cursor), and leaves every other field of the layer-buffer
record unchanged (the C++ method writes no field of the session itself,
which the embedding reflects by being a pure function of the session). -/
theorem updateBuffer_frame (s : ToneMapSession) (f : Fence) (b : LayerBuffer) :
    (s.UpdateBuffer f b).acquire_fence = f ∧
      (s.UpdateBuffer f b).size =
        (s.buffer_info.getD s.current_buffer_index default).alloc_buffer_info.size ∧
      (s.UpdateBuffer f b).handle_id =
        (s.buffer_info.getD s.current_buffer_index default).alloc_buffer_info.id ∧
      (s.UpdateBuffer f b).flagsHdr = b.flagsHdr ∧
      (s.UpdateBuffer f b).transfer = b.transfer ∧
      (s.UpdateBuffer f b).release_fence = b.release_fence ∧
      (s.UpdateBuffer f b).buffer_id = b.buffer_id ∧
      (s.UpdateBuffer f b).width = b.width ∧
      (s.UpdateBuffer f b).height = b.height ∧
      (s.UpdateBuffer f b).format = b.format ∧
      (∀ p ps, b.planes = p :: ps →
        (s.UpdateBuffer f b).planes =
          { p with
            fd := (s.buffer_info.getD s.current_buffer_index default).alloc_buffer_info.fd }
            :: ps) := by
  refine ⟨rfl, rfl, rfl, rfl, rfl, rfl, rfl, rfl, rfl, rfl, ?_⟩
  intro p ps hp
  simp [ToneMapSession.UpdateBuffer, hp, setPlane0Fd]

/-- C10 witness: evaluating `UpdateBuffer` on the concrete HDR layer's buffer with a
fresh session. -/
theorem updateBuffer_frame_witness :
    (ToneMapSession.fresh.UpdateBuffer (some 4) hdrLayer.input_buffer).width = 1920 ∧
      (ToneMapSession.fresh.UpdateBuffer (some 4) hdrLayer.input_buffer).acquire_fence =
        some 4 ∧
      (ToneMapSession.fresh.UpdateBuffer (some 4) hdrLayer.input_buffer).planes =
        [{ fd := 0, offset := 0, stride := 0 }] := by
  have h := updateBuffer_frame ToneMapSession.fresh (some 4) hdrLayer.input_buffer
  refine ⟨h.2.2.2.2.2.2.2.1, h.1, ?_⟩
  have hp := h.2.2.2.2.2.2.2.2.2.2 ⟨-1, 0, 0⟩ [] (by decide)
  rw [hp]
  decide

/-- The surviving-session list of the `PostCommit` loop does not depend on
the running index or frame-buffer index: it is the acquired sessions, each
reconciled. -/
theorem postCommitLoop_fst (layers : List Layer) :
    ∀ (l : List ToneMapSession) (idx : Nat) (fb : Int),
      (postCommitLoop layers l idx fb).1 =
        (l.filter (fun s => s.acquired)).map (reconcileSession layers)
  | [], _, _ => rfl
  | s :: rest, idx, fb => by
    cases hacq : s.acquired
    · simp [postCommitLoop, hacq, postCommitLoop_fst layers rest idx _]
    · simp [postCommitLoop, hacq, postCommitLoop_fst layers rest (idx + 1) fb,
        reconcileSession]

/-- The `PostCommit` loop leaves the frame-buffer index unchanged while it
traverses acquired sessions. -/
theorem postCommitLoop_snd_acquired (layers : List Layer) :
    ∀ (l : List ToneMapSession) (idx : Nat) (fb : Int),
      (∀ s ∈ l, s.acquired = true) → (postCommitLoop layers l idx fb).2 = fb
  | [], _, _, _ => rfl
  | s :: rest, idx, fb, h => by
    have hs : s.acquired = true := h s (by simp)
    have hrest : ∀ s ∈ rest, s.acquired = true := fun s hs => h s (by simp [hs])
    simp [postCommitLoop, hs, postCommitLoop_snd_acquired layers rest (idx + 1) fb hrest]

/-- Skipping a block of `d` acquired sessions advances the loop position by
`d` without touching the frame-buffer index. -/
theorem postCommitLoop_snd_replicate (layers : List Layer) (a : ToneMapSession)
    (ha : a.acquired = true) :
    ∀ (d : Nat) (l : List ToneMapSession) (idx : Nat) (fb : Int),
      (postCommitLoop layers (List.replicate d a ++ l) idx fb).2 =
        (postCommitLoop layers l (idx + d) fb).2
  | 0, l, idx, fb => by simp
  | d + 1, l, idx, fb => by
    rw [List.replicate_succ, List.cons_append]
    show (postCommitLoop layers (a :: (List.replicate d a ++ l)) idx fb).2 = _
    simp only [postCommitLoop, ha, if_true]
    rw [postCommitLoop_snd_replicate layers a ha d l (idx + 1) fb]
    have harr : idx + 1 + d = idx + (d + 1) := by omega
    rw [harr]

/-- C2: the reconciliation `PostCommit` removes a session exactly when its `acquired` flag was
false at entry; every session acquired at entry survives in order, with the
release fence read back from its bound layer's buffer recorded for its
current buffer slot and its `acquired` flag cleared. -/
theorem postCommit_reconciliation (st : HWCToneMapper) (layers : List Layer) :
    (st.PostCommit layers).tone_map_sessions =
      (st.tone_map_sessions.filter (fun s => s.acquired)).map
        (reconcileSession layers) := by
  unfold HWCToneMapper.PostCommit
  exact postCommitLoop_fst layers st.tone_map_sessions 0 st.fb_session_index

/-- C6: when `PostCommit` removes the single unacquired session, sitting at
index `d` after `d` acquired sessions and before further acquired sessions,
the remembered frame-buffer-session index `f` becomes -1 if `d = f`,
`f - 1` if `d < f`, and stays `f` if `d > f`. -/
theorem postCommit_fb_removal (layers : List Layer) (st : HWCToneMapper)
    (a s0 : ToneMapSession) (rest : List ToneMapSession) (d : Nat) (f : Int)
    (ha : a.acquired = true) (h0 : s0.acquired = false)
    (hrest : ∀ s ∈ rest, s.acquired = true)
    (hst : st.tone_map_sessions = List.replicate d a ++ s0 :: rest)
    (hfb : st.fb_session_index = f) :
    (st.PostCommit layers).fb_session_index =
      if (d : Int) = f then -1 else if (d : Int) < f then f - 1 else f := by
  unfold HWCToneMapper.PostCommit
  simp only [hst, hfb]
  rw [postCommitLoop_snd_replicate layers a ha d (s0 :: rest) 0 f]
  simp only [Nat.zero_add]
  simp only [postCommitLoop, h0, Bool.false_eq_true, if_false]
  rw [postCommitLoop_snd_acquired layers rest d _ hrest]

/-- C6 witness: removing the unacquired session at index 1 while the
remembered frame-buffer index is 5 decrements it to 4. -/
theorem postCommit_fb_removal_witness :
    (HWCToneMapper.PostCommit
        { tone_map_sessions := [acquiredSession, ToneMapSession.fresh],
          fb_session_index := 5, dump_frame_count := 0, dump_frame_index := 0 }
        [hdrLayer]).fb_session_index = 4 := by
  have h := postCommit_fb_removal [hdrLayer]
    { tone_map_sessions := [acquiredSession, ToneMapSession.fresh],
      fb_session_index := 5, dump_frame_count := 0, dump_frame_index := 0 }
    acquiredSession ToneMapSession.fresh [] 1 5 rfl rfl (by simp) (by decide) rfl
  simpa using h

/-- Helper: `Terminate` always leaves the session collection empty (when it was
already empty there is nothing to pop). -/
theorem terminate_sessions_empty (st : HWCToneMapper) :
    st.Terminate.tone_map_sessions = [] := by
  unfold HWCToneMapper.Terminate
  rcases h : st.tone_map_sessions with _ | ⟨s, rest⟩ <;> simp [h, List.isEmpty]

/-- Any nonzero status out of the `HandleToneMap` loop is -1 and comes with
an emptied session collection. -/
theorem handleToneMapLoop_fail (o : Oracles) (blend_cs : Nat) :
    ∀ (l : List Layer) (i gpu : Nat) (st : HWCToneMapper),
      (handleToneMapLoop o blend_cs l i gpu st).1 ≠ 0 →
        (handleToneMapLoop o blend_cs l i gpu st).1 = -1 ∧
          (handleToneMapLoop o blend_cs l i gpu st).2.2.tone_map_sessions = []
  | [], i, gpu, st => by
    intro h
    simp [handleToneMapLoop] at h
  | layer :: rest, i, gpu, st => by
    intro h
    simp only [handleToneMapLoop] at h ⊢
    split_ifs at h ⊢
    all_goals
      first
      | exact absurd rfl h
      | exact ⟨rfl, terminate_sessions_empty _⟩
      | exact handleToneMapLoop_fail o blend_cs rest (i + 1) _ _ h

/-- C5: whenever session acquisition fails for a tone-map-flagged layer the
`HandleToneMap` loop immediately tears every live session down and reports
-1 for the whole frame; and any non-success result of `HandleToneMap` is
that -1 with the session collection left empty (no partially tone-mapped
frame survives). -/
theorem handleToneMap_failure_teardown (o : Oracles) (st : HWCToneMapper)
    (layers : List Layer) (blend_cs : Nat) :
    ((st.HandleToneMap o layers blend_cs).1 ≠ 0 →
      (st.HandleToneMap o layers blend_cs).1 = -1 ∧
        (st.HandleToneMap o layers blend_cs).2.2.tone_map_sessions = []) ∧
    (∀ (layer : Layer) (rest : List Layer) (i gpu : Nat),
      layer.request.flags.tone_map = true →
      ¬(layer.composition = kCompositionGPUTarget ∧
          (if layer.composition = kCompositionGPU then gpu + 1 else gpu) = 0 ∧
          ¬st.tone_map_sessions.isEmpty ∧ 0 ≤ st.fb_session_index) →
      (HWCToneMapper.AcquireToneMapSession o layer blend_cs st.tone_map_sessions).1 ≠
        kErrorNone →
      (handleToneMapLoop o blend_cs (layer :: rest) i gpu st).1 = -1 ∧
        (handleToneMapLoop o blend_cs (layer :: rest) i gpu st).2.2.tone_map_sessions =
          []) := by
  constructor
  · exact handleToneMapLoop_fail o blend_cs layers 0 0 st
  · intro layer rest i gpu htm hnsc herr
    simp only [handleToneMapLoop]
    rw [if_pos htm, if_neg hnsc, if_pos herr]
    exact ⟨rfl, terminate_sessions_empty _⟩

/-- C5 witness: a frame whose only layer requests tone mapping with a
zero-dimension LUT fails as a whole and leaves no live session. -/
theorem handleToneMap_failure_teardown_witness :
    (HWCToneMapper.HandleToneMap okOracle
        { tone_map_sessions := [], fb_session_index := -1,
          dump_frame_count := 0, dump_frame_index := 0 }
        [badLutLayer] 0).1 = -1 ∧
      (HWCToneMapper.HandleToneMap okOracle
        { tone_map_sessions := [], fb_session_index := -1,
          dump_frame_count := 0, dump_frame_index := 0 }
        [badLutLayer] 0).2.2.tone_map_sessions = [] :=
  (handleToneMap_failure_teardown okOracle _ [badLutLayer] 0).1 (by decide)

/-- One `FreeIntermediateBuffers` slot ends up unallocated whether it held
a buffer (freed) or not (skipped, already empty). -/
theorem freeSlot_private_none (bi : BufferInfo) :
    ((if bi.private_data.isSome then { bi with private_data := none } else bi) :
        BufferInfo).private_data = none := by
  split_ifs with h
  · rfl
  · exact Option.not_isSome_iff_eq_none.mp h

/-- After `freeSlots n l` with `l.length ≤ n`, no slot holds a buffer. -/
theorem freeSlots_all_none :
    ∀ (n : Nat) (l : List BufferInfo), l.length ≤ n →
      ∀ bi ∈ freeSlots n l, bi.private_data = none
  | _, [], _ => by simp [freeSlots]
  | 0, b :: rest, h => by simp at h
  | n + 1, b :: rest, h => by
    intro bi hbi
    rw [freeSlots] at hbi
    rcases List.mem_cons.mp hbi with hbi | hbi
    · rw [hbi]; exact freeSlot_private_none b
    · exact freeSlots_all_none n rest (by simpa using h) bi hbi

/-- C4: `AllocateIntermediateBuffers` is all-or-nothing. If the k-th of the
N = `kNumIntermediateBuffers` allocations fails (the earlier ones having
succeeded), the call returns the allocator's error for that call and every
buffer slot is left unallocated (everything allocated within the call has
been freed); if every allocation succeeds, the call returns `kErrorNone`
and all N slots hold buffers allocated at the layer's requested width,
height, format and secure flag. -/
theorem allocateIntermediateBuffers_all_or_nothing (o : Oracles) (layer : Layer)
    (bufs : List BufferInfo) (hlen : bufs.length = kNumIntermediateBuffers) :
    (∀ k, k < kNumIntermediateBuffers →
      (∀ i, i < k → (o.allocateBuffer (layerBufferConfig layer) i).1 = kErrorNone) →
      (o.allocateBuffer (layerBufferConfig layer) k).1 ≠ kErrorNone →
      (ToneMapSession.AllocateIntermediateBuffers o layer bufs).1 =
          (o.allocateBuffer (layerBufferConfig layer) k).1 ∧
        ∀ bi ∈ (ToneMapSession.AllocateIntermediateBuffers o layer bufs).2,
          bi.private_data = none) ∧
    ((∀ i, i < kNumIntermediateBuffers →
        (o.allocateBuffer (layerBufferConfig layer) i).1 = kErrorNone) →
      (ToneMapSession.AllocateIntermediateBuffers o layer bufs).1 = kErrorNone ∧
        ∀ j, j < kNumIntermediateBuffers →
          (ToneMapSession.AllocateIntermediateBuffers o layer bufs).2.getD j default =
            { buffer_config := layerBufferConfig layer,
              alloc_buffer_info := (o.allocateBuffer (layerBufferConfig layer) j).2.2,
              private_data := some (o.allocateBuffer (layerBufferConfig layer) j).2.1 }) := by
  rcases bufs with _ | ⟨b0, _ | ⟨b1, _ | ⟨b2, t⟩⟩⟩ <;>
    simp [kNumIntermediateBuffers] at hlen
  by_cases h0 : (o.allocateBuffer (layerBufferConfig layer) 0).1 = kErrorNone
  · by_cases h1 : (o.allocateBuffer (layerBufferConfig layer) 1).1 = kErrorNone
    · refine ⟨?_, ?_⟩
      · intro k hk hbefore hfail
        have hk2 : k < 2 := hk
        interval_cases k
        · exact absurd h0 hfail
        · exact absurd h1 hfail
      · intro _
        refine ⟨?_, ?_⟩
        · simp [ToneMapSession.AllocateIntermediateBuffers, allocLoop,
            kNumIntermediateBuffers, h0, h1]
        · intro j hj
          have hj2 : j < 2 := hj
          interval_cases j <;>
            simp [ToneMapSession.AllocateIntermediateBuffers, allocLoop,
              kNumIntermediateBuffers, h0, h1]
    · refine ⟨?_, ?_⟩
      · intro k hk hbefore hfail
        have hk2 : k < 2 := hk
        interval_cases k
        · exact absurd h0 hfail
        · refine ⟨?_, ?_⟩
          · simp [ToneMapSession.AllocateIntermediateBuffers, allocLoop,
              kNumIntermediateBuffers, h0, h1]
          · intro bi hbi
            simp [ToneMapSession.AllocateIntermediateBuffers, allocLoop,
              ToneMapSession.FreeIntermediateBuffers,
              kNumIntermediateBuffers, h0, h1] at hbi
            exact freeSlots_all_none 2 _ (by simp) bi hbi
      · intro hall
        exact absurd (hall 1 (by norm_num [kNumIntermediateBuffers])) h1
  · refine ⟨?_, ?_⟩
    · intro k hk hbefore hfail
      have hk2 : k < 2 := hk
      interval_cases k
      · refine ⟨?_, ?_⟩
        · simp [ToneMapSession.AllocateIntermediateBuffers, allocLoop,
            kNumIntermediateBuffers, h0]
        · intro bi hbi
          simp [ToneMapSession.AllocateIntermediateBuffers, allocLoop,
            ToneMapSession.FreeIntermediateBuffers,
            kNumIntermediateBuffers, h0] at hbi
          exact freeSlots_all_none 2 _ (by simp) bi hbi
      · exact absurd (hbefore 0 (by norm_num)) h0
    · intro hall
      exact absurd (hall 0 (by norm_num [kNumIntermediateBuffers])) h0

/-- C4 witness: with an allocator whose second allocation fails, the call
reports that error and both slots end up unallocated; with the reliable
allocator both slots are allocated at the layer's geometry. -/
theorem allocateIntermediateBuffers_witness :
    (ToneMapSession.AllocateIntermediateBuffers failAlloc1Oracle hdrLayer
        ToneMapSession.fresh.buffer_info).1 = kErrorResources ∧
      (∀ bi ∈ (ToneMapSession.AllocateIntermediateBuffers failAlloc1Oracle hdrLayer
        ToneMapSession.fresh.buffer_info).2, bi.private_data = none) ∧
      (ToneMapSession.AllocateIntermediateBuffers okOracle hdrLayer
        ToneMapSession.fresh.buffer_info).1 = kErrorNone := by
  have hfail := (allocateIntermediateBuffers_all_or_nothing failAlloc1Oracle hdrLayer
    ToneMapSession.fresh.buffer_info (by decide)).1 1 (by decide) (by decide) (by decide)
  have hok := (allocateIntermediateBuffers_all_or_nothing okOracle hdrLayer
    ToneMapSession.fresh.buffer_info (by decide)).2 (by decide)
  exact ⟨hfail.1, hfail.2, hok.1⟩

/-- The reuse test of the acquisition scan: not acquired this frame and
configuration-matching (hwc_tonemapper.cpp:348). -/
def reusableSession (o : Oracles) (layer : Layer) (blend_cs : Nat)
    (s : ToneMapSession) : Bool :=
  !s.acquired && s.IsSameToneMapConfig o layer blend_cs

/-- The update applied to a reused session: cursor advanced by one modulo
the pool size, marked acquired (hwc_tonemapper.cpp:349-351). -/
def advanceForReuse (s : ToneMapSession) : ToneMapSession :=
  { s with
    current_buffer_index := (s.current_buffer_index + 1) % kNumIntermediateBuffers
    acquired := true }

/-- The partially built session of the no-reuse path, just after
`SetToneMapConfig` and engine acquisition (hwc_tonemapper.cpp:357-366). -/
def newSessionCandidate (o : Oracles) (layer : Layer) (blend_cs : Nat) :
    ToneMapSession :=
  (ToneMapSession.fresh.SetToneMapConfig layer blend_cs).AcquireEngine o layer

/-- The acquisition scan returns the first reusable session, advanced, and
leaves every other session untouched. -/
theorem acquireScan_first (o : Oracles) (layer : Layer) (blend_cs : Nat) :
    ∀ (l : List ToneMapSession) (i : Nat), i < l.length →
      reusableSession o layer blend_cs (l.getD i default) = true →
      (∀ j, j < i → reusableSession o layer blend_cs (l.getD j default) = false) →
      acquireScan o layer blend_cs l =
        some (i, l.set i (advanceForReuse (l.getD i default)))
  | [], i, hi, _, _ => by simp at hi
  | s :: rest, i, hi, hp, hmin => by
    by_cases hs : reusableSession o layer blend_cs s = true
    · have hi0 : i = 0 := by
        by_contra hne
        have := hmin 0 (Nat.pos_of_ne_zero hne)
        simp [List.getD] at this
        rw [this] at hs
        exact Bool.false_ne_true hs
      subst hi0
      simp only [acquireScan]
      rw [if_pos (by simpa [reusableSession] using hs)]
      simp [advanceForReuse, List.getD]
    · have hi0 : i ≠ 0 := by
        intro h
        subst h
        simp [List.getD] at hp
        exact hs hp
      obtain ⟨i', rfl⟩ : ∃ i', i = i' + 1 := ⟨i - 1, by omega⟩
      have hrec := acquireScan_first o layer blend_cs rest i'
        (by simpa using hi) (by simpa [List.getD] using hp)
        (fun j hj => by simpa [List.getD] using hmin (j + 1) (by omega))
      simp only [acquireScan]
      rw [if_neg (by simpa [reusableSession] using hs), hrec]
      simp [List.getD]

/-- If no session is reusable, the acquisition scan finds nothing. -/
theorem acquireScan_none (o : Oracles) (layer : Layer) (blend_cs : Nat) :
    ∀ (l : List ToneMapSession),
      (∀ j, j < l.length → reusableSession o layer blend_cs (l.getD j default) = false) →
      acquireScan o layer blend_cs l = none
  | [], _ => rfl
  | s :: rest, h => by
    have hs := h 0 (by simp)
    simp [List.getD] at hs
    simp only [acquireScan]
    rw [if_neg (by simp [reusableSession] at hs ⊢; intro ha; simpa [ha] using hs)]
    rw [acquireScan_none o layer blend_cs rest
      (fun j hj => by simpa [List.getD] using h (j + 1) (by simpa using hj))]

/-- Case lemma: `AcquireToneMapSession` with a missing or degenerate 3D LUT: rejected
with `kErrorParameters`, state untouched (hwc_tonemapper.cpp:339-343). -/
theorem acquire_eq_lutbad (o : Oracles) (layer : Layer) (blend_cs : Nat)
    (sessions : List ToneMapSession)
    (h : layer.lut_3d.lutEntries = false ∨ layer.lut_3d.dim = 0) :
    HWCToneMapper.AcquireToneMapSession o layer blend_cs sessions =
      (kErrorParameters, sessions, none) := by
  rcases h with h | h <;> simp [HWCToneMapper.AcquireToneMapSession, h]

/-- Case lemma: `AcquireToneMapSession` when the scan finds a reusable session. -/
theorem acquire_eq_scan (o : Oracles) (layer : Layer) (blend_cs : Nat)
    (sessions : List ToneMapSession) (i : Nat) (sessions' : List ToneMapSession)
    (hl1 : layer.lut_3d.lutEntries = true) (hl2 : layer.lut_3d.dim ≠ 0)
    (hscan : acquireScan o layer blend_cs sessions = some (i, sessions')) :
    HWCToneMapper.AcquireToneMapSession o layer blend_cs sessions =
      (kErrorNone, sessions', some i) := by
  simp [HWCToneMapper.AcquireToneMapSession, hl1, hl2, hscan]

/-- Case lemma: `AcquireToneMapSession` when no session is reusable and the GPU
tonemapper factory returns null (hwc_tonemapper.cpp:368-372). -/
theorem acquire_eq_noengine (o : Oracles) (layer : Layer) (blend_cs : Nat)
    (sessions : List ToneMapSession)
    (hl1 : layer.lut_3d.lutEntries = true) (hl2 : layer.lut_3d.dim ≠ 0)
    (hscan : acquireScan o layer blend_cs sessions = none)
    (heng : (newSessionCandidate o layer blend_cs).gpu_tone_mapper = none) :
    HWCToneMapper.AcquireToneMapSession o layer blend_cs sessions =
      (kErrorNotSupported, sessions, none) := by
  rw [newSessionCandidate] at heng
  simp [HWCToneMapper.AcquireToneMapSession, hl1, hl2, hscan, heng]

/-- Case lemma: `AcquireToneMapSession` when no session is reusable, an engine is
obtained, but buffer allocation fails (hwc_tonemapper.cpp:373-378). -/
theorem acquire_eq_allocfail (o : Oracles) (layer : Layer) (blend_cs : Nat)
    (sessions : List ToneMapSession) (e : Nat)
    (hl1 : layer.lut_3d.lutEntries = true) (hl2 : layer.lut_3d.dim ≠ 0)
    (hscan : acquireScan o layer blend_cs sessions = none)
    (heng : (newSessionCandidate o layer blend_cs).gpu_tone_mapper = some e)
    (halloc : (ToneMapSession.AllocateIntermediateBuffers o layer
        (newSessionCandidate o layer blend_cs).buffer_info).1 ≠ kErrorNone) :
    HWCToneMapper.AcquireToneMapSession o layer blend_cs sessions =
      ((ToneMapSession.AllocateIntermediateBuffers o layer
          (newSessionCandidate o layer blend_cs).buffer_info).1, sessions, none) := by
  rw [newSessionCandidate] at heng halloc ⊢
  simp [HWCToneMapper.AcquireToneMapSession, hl1, hl2, hscan, heng, halloc]

/-- Case lemma: `AcquireToneMapSession` when construction of a new session succeeds:
the session is marked acquired and appended (hwc_tonemapper.cpp:380-384). -/
theorem acquire_eq_newsession (o : Oracles) (layer : Layer) (blend_cs : Nat)
    (sessions : List ToneMapSession) (e : Nat)
    (hl1 : layer.lut_3d.lutEntries = true) (hl2 : layer.lut_3d.dim ≠ 0)
    (hscan : acquireScan o layer blend_cs sessions = none)
    (heng : (newSessionCandidate o layer blend_cs).gpu_tone_mapper = some e)
    (halloc : (ToneMapSession.AllocateIntermediateBuffers o layer
        (newSessionCandidate o layer blend_cs).buffer_info).1 = kErrorNone) :
    HWCToneMapper.AcquireToneMapSession o layer blend_cs sessions =
      (kErrorNone,
        sessions ++ [{ newSessionCandidate o layer blend_cs with
          buffer_info := (ToneMapSession.AllocateIntermediateBuffers o layer
            (newSessionCandidate o layer blend_cs).buffer_info).2
          acquired := true }],
        some sessions.length) := by
  rw [newSessionCandidate] at heng halloc ⊢
  simp [HWCToneMapper.AcquireToneMapSession, hl1, hl2, hscan, heng, halloc]

/-- An unacquired session whose configuration matches `hdrLayer` under
`okOracle` (direction FORWARD, blend_cs 0, transfer 6, non-secure,
format 3, unaligned geometry 1920x1080). -/
def matchingSession : ToneMapSession :=
  { ToneMapSession.fresh with
    tone_map_config :=
      { type := TONEMAP_FORWARD, blend_cs := 0, transfer := 6, secure := false, format := 3 }
    gpu_tone_mapper := some 5 }

/-- A tone-map-flagged frame-buffer (GPU-composition-target) layer. -/
def fbLayer : Layer := { hdrLayer with composition := kCompositionGPUTarget }

/-- C1: whenever `AcquireToneMapSession` fails, the live session collection
is returned exactly as it was (no session appended, no existing session's
acquired flag or cursor mutated; the partially built session value is
discarded), and the error is the one matching the failure: missing or
zero-dimension 3D LUT gives `kErrorParameters`, a null GPU tonemapper
factory result gives `kErrorNotSupported`, and an intermediate-buffer
allocation failure propagates the allocator's error. -/
theorem acquireToneMapSession_failure (o : Oracles) (layer : Layer)
    (blend_cs : Nat) (sessions : List ToneMapSession) :
    ((HWCToneMapper.AcquireToneMapSession o layer blend_cs sessions).1 ≠ kErrorNone →
        (HWCToneMapper.AcquireToneMapSession o layer blend_cs sessions).2.1 = sessions) ∧
      ((layer.lut_3d.lutEntries = false ∨ layer.lut_3d.dim = 0) →
        (HWCToneMapper.AcquireToneMapSession o layer blend_cs sessions).1 =
          kErrorParameters) ∧
      (layer.lut_3d.lutEntries = true → layer.lut_3d.dim ≠ 0 →
        acquireScan o layer blend_cs sessions = none →
        (newSessionCandidate o layer blend_cs).gpu_tone_mapper = none →
        (HWCToneMapper.AcquireToneMapSession o layer blend_cs sessions).1 =
          kErrorNotSupported) ∧
      (layer.lut_3d.lutEntries = true → layer.lut_3d.dim ≠ 0 →
        acquireScan o layer blend_cs sessions = none →
        ∀ e, (newSessionCandidate o layer blend_cs).gpu_tone_mapper = some e →
          (ToneMapSession.AllocateIntermediateBuffers o layer
              (newSessionCandidate o layer blend_cs).buffer_info).1 ≠ kErrorNone →
          (HWCToneMapper.AcquireToneMapSession o layer blend_cs sessions).1 =
            (ToneMapSession.AllocateIntermediateBuffers o layer
              (newSessionCandidate o layer blend_cs).buffer_info).1) := by
  refine ⟨?_, ?_, ?_, ?_⟩
  · intro h
    by_cases hl : layer.lut_3d.lutEntries = false ∨ layer.lut_3d.dim = 0
    · rw [acquire_eq_lutbad o layer blend_cs sessions hl]
    · push_neg at hl
      have hl1 : layer.lut_3d.lutEntries = true := by
        rcases Bool.eq_false_or_eq_true layer.lut_3d.lutEntries with hx | hx
        · exact hx
        · exact absurd hx hl.1
      have hl2 := hl.2
      rcases hscan : acquireScan o layer blend_cs sessions with _ | ⟨i, sessions'⟩
      · rcases heng : (newSessionCandidate o layer blend_cs).gpu_tone_mapper with _ | e
        · rw [acquire_eq_noengine o layer blend_cs sessions hl1 hl2 hscan heng]
        · by_cases halloc : (ToneMapSession.AllocateIntermediateBuffers o layer
              (newSessionCandidate o layer blend_cs).buffer_info).1 = kErrorNone
          · rw [acquire_eq_newsession o layer blend_cs sessions e hl1 hl2 hscan heng
              halloc] at h
            simp at h
          · rw [acquire_eq_allocfail o layer blend_cs sessions e hl1 hl2 hscan heng halloc]
      · rw [acquire_eq_scan o layer blend_cs sessions i sessions' hl1 hl2 hscan] at h
        simp at h
  · intro h
    rw [acquire_eq_lutbad o layer blend_cs sessions h]
  · intro hl1 hl2 hscan heng
    rw [acquire_eq_noengine o layer blend_cs sessions hl1 hl2 hscan heng]
  · intro hl1 hl2 hscan e heng halloc
    rw [acquire_eq_allocfail o layer blend_cs sessions e hl1 hl2 hscan heng halloc]

/-- C1 witness: a zero-dimension LUT is rejected with `kErrorParameters`
leaving the collection untouched; a null factory result yields
`kErrorNotSupported`; a failing allocator propagates `kErrorResources`. -/
theorem acquireToneMapSession_failure_witness :
    (HWCToneMapper.AcquireToneMapSession okOracle badLutLayer 0 [acquiredSession]).2.1 =
        [acquiredSession] ∧
      (HWCToneMapper.AcquireToneMapSession okOracle badLutLayer 0 [acquiredSession]).1 =
        kErrorParameters ∧
      (HWCToneMapper.AcquireToneMapSession noEngineOracle hdrLayer 0 []).1 =
        kErrorNotSupported ∧
      (HWCToneMapper.AcquireToneMapSession failAlloc1Oracle hdrLayer 0 []).1 =
        kErrorResources := by
  refine ⟨(acquireToneMapSession_failure okOracle badLutLayer 0 [acquiredSession]).1
      (by decide),
    (acquireToneMapSession_failure okOracle badLutLayer 0 [acquiredSession]).2.1
      (Or.inr rfl),
    (acquireToneMapSession_failure noEngineOracle hdrLayer 0 []).2.2.1
      rfl (by decide) rfl rfl, ?_⟩
  have h := (acquireToneMapSession_failure failAlloc1Oracle hdrLayer 0 []).2.2.2
    rfl (by decide) rfl 5 rfl (by decide)
  rw [h]
  decide

/-- C7: an acquisition that reuses an existing session picks the first
session in insertion order that is unacquired and configuration-matching
and advances exactly that session's cursor by one modulo
`kNumIntermediateBuffers` (marking it acquired, all other sessions
untouched); an acquisition that creates a new session returns it at the
appended index with its cursor still at the initial slot 0. -/
theorem acquire_cursor_policy (o : Oracles) (layer : Layer) (blend_cs : Nat)
    (sessions : List ToneMapSession)
    (hl1 : layer.lut_3d.lutEntries = true) (hl2 : layer.lut_3d.dim ≠ 0) :
    (∀ i, i < sessions.length →
      reusableSession o layer blend_cs (sessions.getD i default) = true →
      (∀ j, j < i → reusableSession o layer blend_cs (sessions.getD j default) = false) →
      HWCToneMapper.AcquireToneMapSession o layer blend_cs sessions =
        (kErrorNone, sessions.set i (advanceForReuse (sessions.getD i default)),
          some i)) ∧
    ((∀ j, j < sessions.length →
        reusableSession o layer blend_cs (sessions.getD j default) = false) →
      (HWCToneMapper.AcquireToneMapSession o layer blend_cs sessions).1 = kErrorNone →
      (HWCToneMapper.AcquireToneMapSession o layer blend_cs sessions).2.2 =
          some sessions.length ∧
        ((HWCToneMapper.AcquireToneMapSession o layer blend_cs sessions).2.1.getD
            sessions.length default).current_buffer_index = 0 ∧
        (HWCToneMapper.AcquireToneMapSession o layer blend_cs sessions).2.1.length =
          sessions.length + 1) := by
  constructor
  · intro i hi hp hmin
    exact acquire_eq_scan o layer blend_cs sessions i _ hl1 hl2
      (acquireScan_first o layer blend_cs sessions i hi hp hmin)
  · intro hnone herr
    have hscan := acquireScan_none o layer blend_cs sessions hnone
    rcases heng : (newSessionCandidate o layer blend_cs).gpu_tone_mapper with _ | e
    · rw [acquire_eq_noengine o layer blend_cs sessions hl1 hl2 hscan heng] at herr
      simp at herr
    · by_cases halloc : (ToneMapSession.AllocateIntermediateBuffers o layer
          (newSessionCandidate o layer blend_cs).buffer_info).1 = kErrorNone
      · rw [acquire_eq_newsession o layer blend_cs sessions e hl1 hl2 hscan heng halloc]
        refine ⟨rfl, ?_, by simp⟩
        simp [List.getD_eq_getElem?_getD, List.getElem?_append_right]
        rfl
      · rw [acquire_eq_allocfail o layer blend_cs sessions e hl1 hl2 hscan heng
          halloc] at herr
        exact absurd herr halloc

/-- C7 witness: reusing the single matching session advances its cursor
from 0 to 1 and marks it acquired; creating a session for the same layer on
an empty collection leaves the new session's cursor at slot 0. -/
theorem acquire_cursor_policy_witness :
    HWCToneMapper.AcquireToneMapSession okOracle hdrLayer 0 [matchingSession] =
        (kErrorNone, [advanceForReuse matchingSession], some 0) ∧
      ((HWCToneMapper.AcquireToneMapSession okOracle hdrLayer 0 []).2.1.getD 0
          default).current_buffer_index = 0 := by
  constructor
  · have h := (acquire_cursor_policy okOracle hdrLayer 0 [matchingSession] rfl
      (by decide)).1 0 (by decide) (by decide)
      (fun j hj => absurd hj (Nat.not_lt_zero j))
    simpa using h
  · exact ((acquire_cursor_policy okOracle hdrLayer 0 [] rfl (by decide)).2
      (fun j hj => absurd hj (Nat.not_lt_zero j)) (by decide)).2.1

/-- C8: when the `HandleToneMap` loop reaches a tone-map-flagged
GPU-composition-target layer with zero GPU-composited layers counted so far
and an existing valid frame-buffer session, it publishes that session's
current output buffer into the layer with a null fence and no blit, binds
the session to this layer index, marks it acquired, and returns success
immediately with every remaining layer unprocessed. -/
theorem handleToneMap_fb_shortcircuit (o : Oracles) (blend_cs : Nat)
    (layer : Layer) (rest : List Layer) (i gpu_count : Nat) (st : HWCToneMapper)
    (htm : layer.request.flags.tone_map = true)
    (hcomp : layer.composition = kCompositionGPUTarget)
    (hgpu : gpu_count = 0)
    (hne : st.tone_map_sessions ≠ [])
    (hfb : 0 ≤ st.fb_session_index)
    (_hvalid : st.fb_session_index.toNat < st.tone_map_sessions.length) :
    handleToneMapLoop o blend_cs (layer :: rest) i gpu_count st =
      (0,
        { layer with
          input_buffer :=
            (st.tone_map_sessions.getD st.fb_session_index.toNat
                default).UpdateBuffer none layer.input_buffer } :: rest,
        { st with
          tone_map_sessions := st.tone_map_sessions.set st.fb_session_index.toNat
            { st.tone_map_sessions.getD st.fb_session_index.toNat default with
              layer_index := (i : Int)
              acquired := true } }) := by
  have hne' : st.tone_map_sessions.isEmpty = false := by
    rcases h : st.tone_map_sessions with _ | ⟨a, l⟩
    · exact absurd h hne
    · rfl
  subst hgpu
  simp [handleToneMapLoop, htm, hcomp, hne', hfb]

/-- C8 witness: a frame-buffer-target tone-map layer reached with zero GPU
layers and a live frame-buffer session short-circuits with success, leaving
the following layer untouched. -/
theorem handleToneMap_fb_shortcircuit_witness :
    (handleToneMapLoop okOracle 0 (fbLayer :: [hdrLayer]) 3 0
        { tone_map_sessions := [matchingSession], fb_session_index := 0,
          dump_frame_count := 0, dump_frame_index := 0 }).1 = 0 ∧
      (handleToneMapLoop okOracle 0 (fbLayer :: [hdrLayer]) 3 0
        { tone_map_sessions := [matchingSession], fb_session_index := 0,
          dump_frame_count := 0, dump_frame_index := 0 }).2.1.getD 1 default =
        hdrLayer := by
  rw [handleToneMap_fb_shortcircuit okOracle 0 fbLayer [hdrLayer] 3 0 _
    rfl rfl rfl (by simp) (by decide) (by decide)]
  exact ⟨rfl, rfl⟩

end sdm
